import Mathlib

/-!
Verification of the sofarpc connection pool (pkg/stream/sofarpc/connpool.go).

The pool owns at most one `activeClient`; `NewStream` gates stream creation
through an admission budget; connection- and stream-level events are reduced
into counter updates and the dead-pool transition.  Each Go function is
embedded as a pure function from the pool state (plus the inputs the Go code
reads from its collaborators) to a new pool state together with a trace of
the externally visible effects it performs, in source order.
-/

/-- The per-host and per-cluster statistic counters touched by connpool.go.
The counters live behind the external metrics library's `Inc`/`Dec` interface
and are modelled as unbounded integers. -/
structure Stats where
  UpstreamRequestTotal : Int
  UpstreamRequestActive : Int
  UpstreamRequestPendingOverflow : Int
  UpstreamRequestTimeout : Int
  UpstreamRequestLocalReset : Int
  UpstreamRequestRemoteReset : Int
  UpstreamRequestFailureEject : Int
  UpstreamConnectionLocalCloseWithActiveRequest : Int
  UpstreamConnectionRemoteCloseWithActiveRequest : Int
  UpstreamConnectionConFail : Int
  UpstreamConnectionTotal : Int
  UpstreamConnectionActive : Int
deriving Repr, DecidableEq

/-- The state of one activeClient that the pool code reads or writes:
`closeWithActiveReq` (connpool.go line 179) and the `uint64` stream counter
`totalStream` (line 180), updated with `atomic.AddUint64`, hence modulo 2^64. -/
structure ActiveClient where
  closeWithActiveReq : Bool
  totalStream : Nat
deriving Repr, DecidableEq

/-- Modelled from the spec: `types.ConnectionEvent` lives in the external
pkg/types package, which is not part of the shown source.  The spec's event
table names Close (Local), Close (Remote), ConnectTimeout and ConnectFailed,
and the keep-alive listener reacts to OnReadTimeout; Connected stands for the
non-terminal connection-established notification. -/
inductive ConnectionEvent where
  | localClose
  | remoteClose
  | connected
  | connectTimeout
  | connectFailed
  | onReadTimeout
deriving Repr, DecidableEq

/-- Modelled from the spec: `event.IsClose()` is defined in the external
pkg/types package.  The spec's connection-event table has exactly two close
rows, Close (Local) and Close (Remote). -/
def ConnectionEvent.IsClose : ConnectionEvent → Bool
  | .localClose => true
  | .remoteClose => true
  | _ => false

/-- Modelled from the spec: `types.StreamResetReason` is external; the spec's
stream-reset table names ConnectionTermination, ConnectionFailed, LocalReset
and RemoteReset. -/
inductive StreamResetReason where
  | streamConnectionTermination
  | streamConnectionFailed
  | streamLocalReset
  | streamRemoteReset
deriving Repr, DecidableEq

/-- The two failure reasons `NewStream` may report through
`PoolEventListener.OnFailure`. -/
inductive FailureReason where
  | connectionFailure
  | overflow
deriving Repr, DecidableEq

/-- Externally visible effects of a pool operation, recorded in source order:
the admission-budget query `CanCreate()`, the budget mutations `Increase()` and
`Decrease()`, the two listener callbacks, the substream request
`client.NewStream`, the listener registration `AddEventListener`, and a
`Close()` call on the underlying connection. -/
inductive Effect where
  | canCreateQuery
  | requestsIncrease
  | requestsDecrease
  | onFailure (reason : FailureReason)
  | onReady
  | newStreamOnClient
  | addEventListener
  | closeConnection
deriving Repr, DecidableEq

/-- The pool state that connpool.go reads and writes: the optional
activeClient (nil = dead pool), the host- and cluster-level counters, and the
admission budget's in-use count (`Requests()` behind
`Increase`/`Decrease`). -/
structure ConnPool where
  activeClient : Option ActiveClient
  hostStats : Stats
  clusterStats : Stats
  requestsInUse : Int
deriving Repr, DecidableEq

/-- connpool.go lines 61-68: `Active` returns true iff `p.activeClient` is
non-nil. -/
def ConnPool.Active (p : ConnPool) : Bool :=
  match p.activeClient with
  | some _ => true
  | none => false

/-- connpool.go lines 74-103: `NewStream`.  Snapshot the activeClient; if nil,
report ConnectionFailure.  Otherwise query the admission budget (`canCreate`
is the answer `CanCreate()` returns): if denied, report Overflow and bump the
pending-overflow counters; if allowed, bump `totalStream` (a `uint64` add),
bump request-total and request-active at host and cluster level, consume one
budget unit, open a substream, register the activeClient as its event
listener, and report OnReady. -/
def ConnPool.NewStream (p : ConnPool) (canCreate : Bool) : ConnPool × List Effect :=
  match p.activeClient with
  | none => (p, [Effect.onFailure FailureReason.connectionFailure])
  | some ac =>
    if !canCreate then
      ({ p with
          hostStats := { p.hostStats with
            UpstreamRequestPendingOverflow :=
              p.hostStats.UpstreamRequestPendingOverflow + 1 },
          clusterStats := { p.clusterStats with
            UpstreamRequestPendingOverflow :=
              p.clusterStats.UpstreamRequestPendingOverflow + 1 } },
        [Effect.canCreateQuery, Effect.onFailure FailureReason.overflow])
    else
      ({ p with
          activeClient := some { ac with totalStream := (ac.totalStream + 1) % 2 ^ 64 },
          hostStats := { p.hostStats with
            UpstreamRequestTotal := p.hostStats.UpstreamRequestTotal + 1,
            UpstreamRequestActive := p.hostStats.UpstreamRequestActive + 1 },
          clusterStats := { p.clusterStats with
            UpstreamRequestTotal := p.clusterStats.UpstreamRequestTotal + 1,
            UpstreamRequestActive := p.clusterStats.UpstreamRequestActive + 1 },
          requestsInUse := p.requestsInUse + 1 },
        [Effect.canCreateQuery, Effect.requestsIncrease, Effect.newStreamOnClient,
          Effect.addEventListener, Effect.onReady])

/-- connpool.go lines 105-109: `Close` closes the underlying connection when
an activeClient exists; the pool state itself is untouched. -/
def ConnPool.Close (p : ConnPool) : ConnPool × List Effect :=
  match p.activeClient with
  | some _ => (p, [Effect.closeConnection])
  | none => (p, [])

/-- connpool.go lines 111-134: `onConnectionEvent`.  Close events bump the
close-with-active-request counter matching the close side when
`closeWithActiveReq` is set, then clear the activeClient; ConnectTimeout bumps
the request-timeout counters, force-closes the connection and clears the
activeClient; ConnectFailed bumps the connection-failure counters and clears
the activeClient; any other event does nothing.  The Go code never writes the
client argument, so it is returned unchanged. -/
def ConnPool.onConnectionEvent (p : ConnPool) (client : ActiveClient)
    (event : ConnectionEvent) : ConnPool × ActiveClient × List Effect :=
  if event.IsClose then
    let p1 :=
      if client.closeWithActiveReq then
        if event = ConnectionEvent.localClose then
          { p with
              hostStats := { p.hostStats with
                UpstreamConnectionLocalCloseWithActiveRequest :=
                  p.hostStats.UpstreamConnectionLocalCloseWithActiveRequest + 1 },
              clusterStats := { p.clusterStats with
                UpstreamConnectionLocalCloseWithActiveRequest :=
                  p.clusterStats.UpstreamConnectionLocalCloseWithActiveRequest + 1 } }
        else if event = ConnectionEvent.remoteClose then
          { p with
              hostStats := { p.hostStats with
                UpstreamConnectionRemoteCloseWithActiveRequest :=
                  p.hostStats.UpstreamConnectionRemoteCloseWithActiveRequest + 1 },
              clusterStats := { p.clusterStats with
                UpstreamConnectionRemoteCloseWithActiveRequest :=
                  p.clusterStats.UpstreamConnectionRemoteCloseWithActiveRequest + 1 } }
        else p
      else p
    ({ p1 with activeClient := none }, client, [])
  else if event = ConnectionEvent.connectTimeout then
    ({ p with
        activeClient := none,
        hostStats := { p.hostStats with
          UpstreamRequestTimeout := p.hostStats.UpstreamRequestTimeout + 1 },
        clusterStats := { p.clusterStats with
          UpstreamRequestTimeout := p.clusterStats.UpstreamRequestTimeout + 1 } },
      client, [Effect.closeConnection])
  else if event = ConnectionEvent.connectFailed then
    ({ p with
        activeClient := none,
        hostStats := { p.hostStats with
          UpstreamConnectionConFail := p.hostStats.UpstreamConnectionConFail + 1 },
        clusterStats := { p.clusterStats with
          UpstreamConnectionConFail := p.clusterStats.UpstreamConnectionConFail + 1 } },
      client, [])
  else (p, client, [])

/-- connpool.go lines 136-140: `onStreamDestroy` decrements the host- and
cluster-level active-request counters and releases one admission-budget unit
via `Requests().Decrease()`; the client argument is not used. -/
def ConnPool.onStreamDestroy (p : ConnPool) (client : ActiveClient) :
    ConnPool × List Effect :=
  ({ p with
      hostStats := { p.hostStats with
        UpstreamRequestActive := p.hostStats.UpstreamRequestActive - 1 },
      clusterStats := { p.clusterStats with
        UpstreamRequestActive := p.clusterStats.UpstreamRequestActive - 1 },
      requestsInUse := p.requestsInUse - 1 },
    [Effect.requestsDecrease])

/-- connpool.go lines 142-154: `onStreamReset` classifies the reset reason:
ConnectionTermination and ConnectionFailed bump the failure-eject counters and
set the client's `closeWithActiveReq`; LocalReset and RemoteReset bump their
respective counters and leave the client unchanged. -/
def ConnPool.onStreamReset (p : ConnPool) (client : ActiveClient)
    (reason : StreamResetReason) : ConnPool × ActiveClient :=
  if reason = StreamResetReason.streamConnectionTermination ∨
      reason = StreamResetReason.streamConnectionFailed then
    ({ p with
        hostStats := { p.hostStats with
          UpstreamRequestFailureEject := p.hostStats.UpstreamRequestFailureEject + 1 },
        clusterStats := { p.clusterStats with
          UpstreamRequestFailureEject := p.clusterStats.UpstreamRequestFailureEject + 1 } },
      { client with closeWithActiveReq := true })
  else if reason = StreamResetReason.streamLocalReset then
    ({ p with
        hostStats := { p.hostStats with
          UpstreamRequestLocalReset := p.hostStats.UpstreamRequestLocalReset + 1 },
        clusterStats := { p.clusterStats with
          UpstreamRequestLocalReset := p.clusterStats.UpstreamRequestLocalReset + 1 } },
      client)
  else if reason = StreamResetReason.streamRemoteReset then
    ({ p with
        hostStats := { p.hostStats with
          UpstreamRequestRemoteReset := p.hostStats.UpstreamRequestRemoteReset + 1 },
        clusterStats := { p.clusterStats with
          UpstreamRequestRemoteReset := p.clusterStats.UpstreamRequestRemoteReset + 1 } },
      client)
  else (p, client)

/-- The outcome of one `newActiveClient` construction attempt: the resulting
pool state, the returned activeClient (none on connect failure), and whether a
keep-alive probe was started. -/
structure ConstructResult where
  pool : ConnPool
  result : Option ActiveClient
  keepAliveStarted : Bool
deriving Repr, DecidableEq

/-- connpool.go lines 183-231: `newActiveClient`.  `connectOk` is the outcome
of the synchronous `Connection.Connect(true)` handshake, `hasSubProtocol`
whether the request context carries a sub-protocol byte.  On handshake failure
construction returns nil without touching the pool.  On success it starts the
keep-alive probe when a sub-protocol is present, bumps the connection-total
and connection-active counters at host and cluster level, and publishes the
new client as the pool's activeClient under the mutex. -/
def newActiveClient (connectOk : Bool) (hasSubProtocol : Bool) (pool : ConnPool) :
    ConstructResult :=
  let ac : ActiveClient := { closeWithActiveReq := false, totalStream := 0 }
  if !connectOk then
    { pool := pool, result := none, keepAliveStarted := false }
  else
    let pool1 := { pool with
      hostStats := { pool.hostStats with
        UpstreamConnectionTotal := pool.hostStats.UpstreamConnectionTotal + 1,
        UpstreamConnectionActive := pool.hostStats.UpstreamConnectionActive + 1 },
      clusterStats := { pool.clusterStats with
        UpstreamConnectionTotal := pool.clusterStats.UpstreamConnectionTotal + 1,
        UpstreamConnectionActive := pool.clusterStats.UpstreamConnectionActive + 1 } }
    { pool := { pool1 with activeClient := some ac },
      result := some ac,
      keepAliveStarted := hasSubProtocol }

/-- connpool.go lines 57-59: `init` runs one construction attempt and assigns
its return value to `p.activeClient` (nil when the attempt failed). -/
def poolInit (connectOk : Bool) (hasSubProtocol : Bool) (p : ConnPool) : ConnPool :=
  let r := newActiveClient connectOk hasSubProtocol p
  { r.pool with activeClient := r.result }

/-- One step of the pool, after construction: the operations that can run on a
live pool object. -/
inductive PoolOp where
  | newStream (canCreate : Bool)
  | close
  | connEvent (client : ActiveClient) (event : ConnectionEvent)
  | streamDestroy (client : ActiveClient)
  | streamReset (client : ActiveClient) (reason : StreamResetReason)
deriving Repr, DecidableEq

/-- Pool-state part of one operation of the pool. -/
def applyOp (op : PoolOp) (p : ConnPool) : ConnPool :=
  match op with
  | .newStream c => (p.NewStream c).fst
  | .close => (p.Close).fst
  | .connEvent cl ev => (p.onConnectionEvent cl ev).fst
  | .streamDestroy cl => (p.onStreamDestroy cl).fst
  | .streamReset cl r => (p.onStreamReset cl r).fst

/-- Pool-state part of a sequence of operations, applied left to right. -/
def applyOps (ops : List PoolOp) (p : ConnPool) : ConnPool :=
  ops.foldl (fun q op => applyOp op q) p

/-- The terminal connection events of the spec's event table: either close
event, ConnectTimeout, or ConnectFailed. -/
def terminalEvent : ConnectionEvent → Bool
  | .localClose => true
  | .remoteClose => true
  | .connectTimeout => true
  | .connectFailed => true
  | _ => false

/-- N successive admitted `NewStream` calls (`CanCreate()` answering true each
time). -/
def iterNewStream : Nat → ConnPool → ConnPool
  | 0, p => p
  | n + 1, p => iterNewStream n (p.NewStream true).fst

/-- N successive `onStreamDestroy` notifications. -/
def iterDestroy (client : ActiveClient) : Nat → ConnPool → ConnPool
  | 0, p => p
  | n + 1, p => iterDestroy client n (p.onStreamDestroy client).fst

/-- Mutex and activeClient-field access events, used to state the lock
discipline of connpool.go: `lock`/`unlock` are operations on `p.mux`, `readAC`
and `writeAC` are accesses to `p.activeClient`. -/
inductive SyncEvent where
  | lock
  | unlock
  | readAC
  | writeAC
deriving Repr, DecidableEq

/-- From a starting lock depth, check that every activeClient access in the
trace happens at positive lock depth. -/
def accessesLockedFrom : Nat → List SyncEvent → Bool
  | _, [] => true
  | d, SyncEvent.lock :: rest => accessesLockedFrom (d + 1) rest
  | d, SyncEvent.unlock :: rest => accessesLockedFrom (d - 1) rest
  | d, SyncEvent.readAC :: rest => decide (0 < d) && accessesLockedFrom d rest
  | d, SyncEvent.writeAC :: rest => decide (0 < d) && accessesLockedFrom d rest

/-- Every activeClient access in the trace is performed while the mutex is
held. -/
def accessesLocked (t : List SyncEvent) : Bool := accessesLockedFrom 0 t

/-- connpool.go lines 76-78: `NewStream` locks `p.mux`, snapshots
`p.activeClient`, unlocks; no further access to the field. -/
def newStreamSyncTrace : List SyncEvent :=
  [SyncEvent.lock, SyncEvent.readAC, SyncEvent.unlock]

/-- connpool.go lines 62-64: `Active` reads `p.activeClient` between `Lock`
and the deferred `Unlock`. -/
def activeSyncTrace : List SyncEvent :=
  [SyncEvent.lock, SyncEvent.readAC, SyncEvent.unlock]

/-- connpool.go lines 106-107: `Close` reads `p.activeClient` twice (the nil
check and the dereference) without taking `p.mux`. -/
def closeSyncTrace : List SyncEvent :=
  [SyncEvent.readAC, SyncEvent.readAC]

/-- connpool.go line 123 (also 128, 132): the terminal branches of
`onConnectionEvent` write `p.activeClient = nil` without taking `p.mux`. -/
def connectionEventSyncTrace : List SyncEvent :=
  [SyncEvent.writeAC]

/-- connpool.go lines 57-59 and 226-228, successful construction:
`newActiveClient` publishes the client under the mutex, but `init` then
assigns the returned pointer to `p.activeClient` a second time with no lock
held. -/
def initSyncTrace : List SyncEvent :=
  [SyncEvent.lock, SyncEvent.writeAC, SyncEvent.unlock, SyncEvent.writeAC]

def stats0 : Stats :=
  { UpstreamRequestTotal := 0
    UpstreamRequestActive := 0
    UpstreamRequestPendingOverflow := 0
    UpstreamRequestTimeout := 0
    UpstreamRequestLocalReset := 0
    UpstreamRequestRemoteReset := 0
    UpstreamRequestFailureEject := 0
    UpstreamConnectionLocalCloseWithActiveRequest := 0
    UpstreamConnectionRemoteCloseWithActiveRequest := 0
    UpstreamConnectionConFail := 0
    UpstreamConnectionTotal := 0
    UpstreamConnectionActive := 0 }

def ac0 : ActiveClient := { closeWithActiveReq := false, totalStream := 0 }

def ac1 : ActiveClient := { closeWithActiveReq := true, totalStream := 3 }

/-- A pool with an installed activeClient and zeroed counters. -/
def livePool : ConnPool :=
  { activeClient := some ac0
    hostStats := stats0
    clusterStats := stats0
    requestsInUse := 0 }

/-- A dead pool: no activeClient. -/
def deadPool : ConnPool :=
  { activeClient := none
    hostStats := stats0
    clusterStats := stats0
    requestsInUse := 0 }

/-- C1: on a pool with an installed activeClient whose admission budget
answers `CanCreate() == true`, `NewStream` bumps `totalStream` by exactly one,
bumps request-total and request-active by exactly one at host and cluster
level, consumes exactly one budget unit with one `Requests().Increase()`, and
its effect trace holds exactly one substream request, one event-listener
registration and one `OnReady` callback. -/
theorem newStream_admitted (p : ConnPool) (ac : ActiveClient)
    (hac : p.activeClient = some ac) (hwrap : ac.totalStream + 1 < 2 ^ 64) :
    p.NewStream true =
      ({ p with
          activeClient := some { ac with totalStream := ac.totalStream + 1 },
          hostStats := { p.hostStats with
            UpstreamRequestTotal := p.hostStats.UpstreamRequestTotal + 1,
            UpstreamRequestActive := p.hostStats.UpstreamRequestActive + 1 },
          clusterStats := { p.clusterStats with
            UpstreamRequestTotal := p.clusterStats.UpstreamRequestTotal + 1,
            UpstreamRequestActive := p.clusterStats.UpstreamRequestActive + 1 },
          requestsInUse := p.requestsInUse + 1 },
        [Effect.canCreateQuery, Effect.requestsIncrease, Effect.newStreamOnClient,
          Effect.addEventListener, Effect.onReady]) := by
  have h2 : (ac.totalStream + 1) % 2 ^ 64 = ac.totalStream + 1 := Nat.mod_eq_of_lt hwrap
  simp [ConnPool.NewStream, hac, h2]
  omega

/-- C1 witness: the admitted path evaluated on a concrete live pool. -/
theorem newStream_admitted_witness :
    livePool.activeClient = some ac0 ∧ ac0.totalStream + 1 < 2 ^ 64 ∧
    (livePool.NewStream true).snd =
      [Effect.canCreateQuery, Effect.requestsIncrease, Effect.newStreamOnClient,
        Effect.addEventListener, Effect.onReady] :=
  ⟨rfl, by decide, by rw [newStream_admitted livePool ac0 rfl (by decide)]⟩

/-- C2: on a dead pool (`activeClient` nil) `NewStream` reports exactly one
`OnFailure(ConnectionFailure, nil)` and has no other effect: the pool state is
unchanged and the admission budget is neither queried nor consumed, whatever
`CanCreate()` would have answered. -/
theorem newStream_dead (p : ConnPool) (canCreate : Bool)
    (hac : p.activeClient = none) :
    p.NewStream canCreate = (p, [Effect.onFailure FailureReason.connectionFailure]) := by
  simp [ConnPool.NewStream, hac]

/-- C2 witness: the dead path evaluated on a concrete dead pool. -/
theorem newStream_dead_witness :
    deadPool.activeClient = none ∧
    deadPool.NewStream true = (deadPool, [Effect.onFailure FailureReason.connectionFailure]) :=
  ⟨rfl, newStream_dead deadPool true rfl⟩

/-- C3: on a live pool whose admission budget answers `CanCreate() == false`,
`NewStream` reports exactly one `OnFailure(Overflow, nil)` and bumps the
pending-overflow counter by exactly one at host and at cluster level; no
stream is created, `Requests().Increase()` is not called, and the
activeClient (hence `totalStream`), the request-total and the request-active
counters are unchanged. -/
theorem newStream_overflow (p : ConnPool) (ac : ActiveClient)
    (hac : p.activeClient = some ac) :
    p.NewStream false =
      ({ p with
          hostStats := { p.hostStats with
            UpstreamRequestPendingOverflow :=
              p.hostStats.UpstreamRequestPendingOverflow + 1 },
          clusterStats := { p.clusterStats with
            UpstreamRequestPendingOverflow :=
              p.clusterStats.UpstreamRequestPendingOverflow + 1 } },
        [Effect.canCreateQuery, Effect.onFailure FailureReason.overflow]) := by
  simp [ConnPool.NewStream, hac]

/-- C3 witness: the overflow path evaluated on a concrete live pool. -/
theorem newStream_overflow_witness :
    livePool.activeClient = some ac0 ∧
    (livePool.NewStream false).snd =
      [Effect.canCreateQuery, Effect.onFailure FailureReason.overflow] :=
  ⟨rfl, by rw [newStream_overflow livePool ac0 rfl]⟩

theorem applyOp_preserves_dead (op : PoolOp) (p : ConnPool)
    (hac : p.activeClient = none) : (applyOp op p).activeClient = none := by
  cases op <;>
    simp [applyOp, ConnPool.NewStream, ConnPool.Close, ConnPool.onConnectionEvent,
      ConnPool.onStreamDestroy, ConnPool.onStreamReset, hac] <;>
    split_ifs <;> simp [hac]

theorem applyOps_preserves_dead (ops : List PoolOp) (p : ConnPool)
    (hac : p.activeClient = none) : (applyOps ops p).activeClient = none := by
  induction ops generalizing p with
  | nil => simpa [applyOps] using hac
  | cons op rest ih => exact ih (applyOp op p) (applyOp_preserves_dead op p hac)

/-- C4: every terminal connection event (either close event, ConnectTimeout or
ConnectFailed) leaves the pool with `activeClient = none`, so `Active` answers
false and the next `NewStream` reports ConnectionFailure; and no sequence of
pool operations ever moves the pool back out of the dead state. -/
theorem terminal_event_kills_pool (p : ConnPool) (client : ActiveClient)
    (ev : ConnectionEvent) (ops : List PoolOp) (hev : terminalEvent ev = true) :
    (p.onConnectionEvent client ev).fst.activeClient = none ∧
    (p.onConnectionEvent client ev).fst.Active = false ∧
    ((p.onConnectionEvent client ev).fst.NewStream true).snd =
      [Effect.onFailure FailureReason.connectionFailure] ∧
    (applyOps ops (p.onConnectionEvent client ev).fst).activeClient = none := by
  have h1 : (p.onConnectionEvent client ev).fst.activeClient = none := by
    cases ev <;> simp_all [ConnPool.onConnectionEvent, ConnectionEvent.IsClose,
      terminalEvent]
  refine ⟨h1, ?_, ?_, applyOps_preserves_dead ops _ h1⟩
  · simp [ConnPool.Active, h1]
  · simp [ConnPool.NewStream, h1]

/-- C4 witness: a RemoteClose on a concrete live pool kills it, and two
further operations leave it dead. -/
theorem terminal_event_kills_pool_witness :
    terminalEvent ConnectionEvent.remoteClose = true ∧
    (livePool.onConnectionEvent ac1 ConnectionEvent.remoteClose).fst.activeClient = none ∧
    (applyOps [PoolOp.newStream true, PoolOp.close]
      (livePool.onConnectionEvent ac1 ConnectionEvent.remoteClose).fst).activeClient = none :=
  ⟨by decide,
    (terminal_event_kills_pool livePool ac1 ConnectionEvent.remoteClose [] (by decide)).1,
    (terminal_event_kills_pool livePool ac1 ConnectionEvent.remoteClose
      [PoolOp.newStream true, PoolOp.close] (by decide)).2.2.2⟩

theorem newStream_admitted_deltas (p : ConnPool) (h : p.activeClient.isSome = true) :
    (p.NewStream true).fst.activeClient.isSome = true ∧
    (p.NewStream true).fst.hostStats.UpstreamRequestActive =
      p.hostStats.UpstreamRequestActive + 1 ∧
    (p.NewStream true).fst.clusterStats.UpstreamRequestActive =
      p.clusterStats.UpstreamRequestActive + 1 ∧
    (p.NewStream true).fst.requestsInUse = p.requestsInUse + 1 := by
  cases hac : p.activeClient with
  | none => simp [hac] at h
  | some ac => simp [ConnPool.NewStream, hac]

theorem iterNewStream_deltas (n : Nat) (p : ConnPool)
    (h : p.activeClient.isSome = true) :
    (iterNewStream n p).activeClient.isSome = true ∧
    (iterNewStream n p).hostStats.UpstreamRequestActive =
      p.hostStats.UpstreamRequestActive + n ∧
    (iterNewStream n p).clusterStats.UpstreamRequestActive =
      p.clusterStats.UpstreamRequestActive + n ∧
    (iterNewStream n p).requestsInUse = p.requestsInUse + n := by
  induction n generalizing p with
  | zero => simp [iterNewStream, h]
  | succ m ih =>
    obtain ⟨h1, h2, h3, h4⟩ := newStream_admitted_deltas p h
    obtain ⟨g1, g2, g3, g4⟩ := ih (p.NewStream true).fst h1
    refine ⟨g1, ?_, ?_, ?_⟩ <;> simp only [iterNewStream] <;> omega

theorem iterDestroy_deltas (client : ActiveClient) (n : Nat) (p : ConnPool) :
    (iterDestroy client n p).hostStats.UpstreamRequestActive =
      p.hostStats.UpstreamRequestActive - n ∧
    (iterDestroy client n p).clusterStats.UpstreamRequestActive =
      p.clusterStats.UpstreamRequestActive - n ∧
    (iterDestroy client n p).requestsInUse = p.requestsInUse - n := by
  induction n generalizing p with
  | zero => simp [iterDestroy]
  | succ m ih =>
    obtain ⟨g1, g2, g3⟩ := ih (p.onStreamDestroy client).fst
    refine ⟨?_, ?_, ?_⟩ <;> simp only [iterDestroy] <;>
      simp [ConnPool.onStreamDestroy] at g1 g2 g3 ⊢ <;> omega

/-- C5: `onStreamDestroy` decrements the host- and cluster-level
active-request counters by exactly one and calls `Requests().Decrease()`
exactly once, and N admitted `NewStream` calls followed by N
`onStreamDestroy` notifications return both active-request counters and the
admission budget's in-use count to their starting values. -/
theorem destroy_inverts_newStream (p : ConnPool) (client : ActiveClient) (n : Nat)
    (h : p.activeClient.isSome = true) :
    (p.onStreamDestroy client).fst.hostStats.UpstreamRequestActive =
      p.hostStats.UpstreamRequestActive - 1 ∧
    (p.onStreamDestroy client).fst.clusterStats.UpstreamRequestActive =
      p.clusterStats.UpstreamRequestActive - 1 ∧
    (p.onStreamDestroy client).fst.requestsInUse = p.requestsInUse - 1 ∧
    (p.onStreamDestroy client).snd = [Effect.requestsDecrease] ∧
    (iterDestroy client n (iterNewStream n p)).hostStats.UpstreamRequestActive =
      p.hostStats.UpstreamRequestActive ∧
    (iterDestroy client n (iterNewStream n p)).clusterStats.UpstreamRequestActive =
      p.clusterStats.UpstreamRequestActive ∧
    (iterDestroy client n (iterNewStream n p)).requestsInUse = p.requestsInUse := by
  obtain ⟨a1, a2, a3, a4⟩ := iterNewStream_deltas n p h
  obtain ⟨b1, b2, b3⟩ := iterDestroy_deltas client n (iterNewStream n p)
  refine ⟨by simp [ConnPool.onStreamDestroy], by simp [ConnPool.onStreamDestroy],
    by simp [ConnPool.onStreamDestroy], by simp [ConnPool.onStreamDestroy],
    ?_, ?_, ?_⟩ <;> omega

/-- C5 witness: two creations followed by two destroys on a concrete live
pool restore the budget's in-use count. -/
theorem destroy_inverts_newStream_witness :
    livePool.activeClient.isSome = true ∧
    (iterDestroy ac0 2 (iterNewStream 2 livePool)).requestsInUse =
      livePool.requestsInUse :=
  ⟨rfl, (destroy_inverts_newStream livePool ac0 2 rfl).2.2.2.2.2.2⟩

/-- C6: the connection-event table.  A LocalClose with `closeWithActiveReq`
set bumps the local-close-with-active-request counters at host and cluster
level by one; a RemoteClose with the flag set bumps the remote-close
counters; a close event with the flag unset bumps nothing; ConnectTimeout
bumps the request-timeout counters and force-closes the connection;
ConnectFailed bumps the connection-failure counters; every one of these
clears the activeClient and changes no other counter, and the client's flag
is never written. -/
theorem connection_event_table (p : ConnPool) (client : ActiveClient) :
    (client.closeWithActiveReq = true →
      p.onConnectionEvent client ConnectionEvent.localClose =
        ({ p with
            activeClient := none,
            hostStats := { p.hostStats with
              UpstreamConnectionLocalCloseWithActiveRequest :=
                p.hostStats.UpstreamConnectionLocalCloseWithActiveRequest + 1 },
            clusterStats := { p.clusterStats with
              UpstreamConnectionLocalCloseWithActiveRequest :=
                p.clusterStats.UpstreamConnectionLocalCloseWithActiveRequest + 1 } },
          client, []) ∧
      p.onConnectionEvent client ConnectionEvent.remoteClose =
        ({ p with
            activeClient := none,
            hostStats := { p.hostStats with
              UpstreamConnectionRemoteCloseWithActiveRequest :=
                p.hostStats.UpstreamConnectionRemoteCloseWithActiveRequest + 1 },
            clusterStats := { p.clusterStats with
              UpstreamConnectionRemoteCloseWithActiveRequest :=
                p.clusterStats.UpstreamConnectionRemoteCloseWithActiveRequest + 1 } },
          client, [])) ∧
    (client.closeWithActiveReq = false →
      p.onConnectionEvent client ConnectionEvent.localClose =
        ({ p with activeClient := none }, client, []) ∧
      p.onConnectionEvent client ConnectionEvent.remoteClose =
        ({ p with activeClient := none }, client, [])) ∧
    p.onConnectionEvent client ConnectionEvent.connectTimeout =
      ({ p with
          activeClient := none,
          hostStats := { p.hostStats with
            UpstreamRequestTimeout := p.hostStats.UpstreamRequestTimeout + 1 },
          clusterStats := { p.clusterStats with
            UpstreamRequestTimeout := p.clusterStats.UpstreamRequestTimeout + 1 } },
        client, [Effect.closeConnection]) ∧
    p.onConnectionEvent client ConnectionEvent.connectFailed =
      ({ p with
          activeClient := none,
          hostStats := { p.hostStats with
            UpstreamConnectionConFail := p.hostStats.UpstreamConnectionConFail + 1 },
          clusterStats := { p.clusterStats with
            UpstreamConnectionConFail := p.clusterStats.UpstreamConnectionConFail + 1 } },
        client, []) := by
  refine ⟨fun hreq => ⟨?_, ?_⟩, fun hreq => ⟨?_, ?_⟩, ?_, ?_⟩ <;>
    simp_all [ConnPool.onConnectionEvent, ConnectionEvent.IsClose]

/-- C6 witness: the table evaluated at concrete clients with the flag set and
unset. -/
theorem connection_event_table_witness :
    ac1.closeWithActiveReq = true ∧ ac0.closeWithActiveReq = false ∧
    Stats.UpstreamConnectionLocalCloseWithActiveRequest
      (livePool.onConnectionEvent ac1 ConnectionEvent.localClose).fst.hostStats = 1 ∧
    livePool.onConnectionEvent ac0 ConnectionEvent.remoteClose =
      ({ livePool with activeClient := none }, ac0, []) :=
  ⟨rfl, rfl,
    by rw [((connection_event_table livePool ac1).1 rfl).1]; rfl,
    ((connection_event_table livePool ac0).2.1 rfl).2⟩

/-- C7: the stream-reset table.  ConnectionTermination and ConnectionFailed
each bump the request-failure-eject counters at host and cluster level by one
and set the client's `closeWithActiveReq`; LocalReset bumps the
request-local-reset counters and RemoteReset the request-remote-reset
counters, both leaving the client untouched; no other counter changes in any
case. -/
theorem stream_reset_table (p : ConnPool) (client : ActiveClient) :
    p.onStreamReset client StreamResetReason.streamConnectionTermination =
      ({ p with
          hostStats := { p.hostStats with
            UpstreamRequestFailureEject := p.hostStats.UpstreamRequestFailureEject + 1 },
          clusterStats := { p.clusterStats with
            UpstreamRequestFailureEject := p.clusterStats.UpstreamRequestFailureEject + 1 } },
        { client with closeWithActiveReq := true }) ∧
    p.onStreamReset client StreamResetReason.streamConnectionFailed =
      ({ p with
          hostStats := { p.hostStats with
            UpstreamRequestFailureEject := p.hostStats.UpstreamRequestFailureEject + 1 },
          clusterStats := { p.clusterStats with
            UpstreamRequestFailureEject := p.clusterStats.UpstreamRequestFailureEject + 1 } },
        { client with closeWithActiveReq := true }) ∧
    p.onStreamReset client StreamResetReason.streamLocalReset =
      ({ p with
          hostStats := { p.hostStats with
            UpstreamRequestLocalReset := p.hostStats.UpstreamRequestLocalReset + 1 },
          clusterStats := { p.clusterStats with
            UpstreamRequestLocalReset := p.clusterStats.UpstreamRequestLocalReset + 1 } },
        client) ∧
    p.onStreamReset client StreamResetReason.streamRemoteReset =
      ({ p with
          hostStats := { p.hostStats with
            UpstreamRequestRemoteReset := p.hostStats.UpstreamRequestRemoteReset + 1 },
          clusterStats := { p.clusterStats with
            UpstreamRequestRemoteReset := p.clusterStats.UpstreamRequestRemoteReset + 1 } },
        client) := by
  refine ⟨?_, ?_, ?_, ?_⟩ <;> simp [ConnPool.onStreamReset]

/-- C8: when the connect handshake fails, `newActiveClient` returns no
client, the pool state is byte-for-byte unchanged (no counter bumped, the
activeClient field untouched) and no keep-alive probe is started; running the
whole `init` attempt on a pool whose activeClient was nil leaves the pool
exactly as it was. -/
theorem connect_failure_leaves_pool_dead (p : ConnPool) (hasSubProtocol : Bool) :
    newActiveClient false hasSubProtocol p =
      { pool := p, result := none, keepAliveStarted := false } ∧
    (p.activeClient = none → poolInit false hasSubProtocol p = p) := by
  refine ⟨by simp [newActiveClient], fun hac => ?_⟩
  cases p
  simp_all [poolInit, newActiveClient]

/-- C8 witness: the failed bootstrap attempt evaluated on a concrete dead
pool. -/
theorem connect_failure_leaves_pool_dead_witness :
    deadPool.activeClient = none ∧
    newActiveClient false true deadPool =
      { pool := deadPool, result := none, keepAliveStarted := false } ∧
    poolInit false true deadPool = deadPool :=
  ⟨rfl, (connect_failure_leaves_pool_dead deadPool true).1,
    (connect_failure_leaves_pool_dead deadPool true).2 rfl⟩

/-- C10: for any connection event that is neither a close event nor
ConnectTimeout nor ConnectFailed, `onConnectionEvent` is a no-op: the pool
state (activeClient and every counter) and the client (its
`closeWithActiveReq` flag) are unchanged and no effect is performed, in
particular the connection is not closed. -/
theorem nonterminal_event_noop (p : ConnPool) (client : ActiveClient)
    (ev : ConnectionEvent) (h : terminalEvent ev = false) :
    p.onConnectionEvent client ev = (p, client, []) := by
  cases ev <;> simp_all [ConnPool.onConnectionEvent, ConnectionEvent.IsClose,
    terminalEvent]

/-- C10 witness: a Connected and an OnReadTimeout event on a concrete pool
change nothing. -/
theorem nonterminal_event_noop_witness :
    terminalEvent ConnectionEvent.connected = false ∧
    terminalEvent ConnectionEvent.onReadTimeout = false ∧
    livePool.onConnectionEvent ac1 ConnectionEvent.connected = (livePool, ac1, []) ∧
    livePool.onConnectionEvent ac1 ConnectionEvent.onReadTimeout = (livePool, ac1, []) :=
  ⟨rfl, rfl, nonterminal_event_noop livePool ac1 ConnectionEvent.connected rfl,
    nonterminal_event_noop livePool ac1 ConnectionEvent.onReadTimeout rfl⟩

/-- C9 evaluated on the code: the claim that every access to
`p.activeClient` holds `p.mux` is violated.  `NewStream` (lines 76-78) and
`Active` (lines 62-64) do lock around their accesses, but `Close` reads the
field with no lock (lines 106-107), the terminal branches of
`onConnectionEvent` write nil to it with no lock (lines 123, 128, 132), and
`init` (line 58) assigns the construction result to it with no lock, after
the locked publication inside `newActiveClient` (lines 226-228). -/
theorem activeClient_lock_discipline_violated :
    accessesLocked newStreamSyncTrace = true ∧
    accessesLocked activeSyncTrace = true ∧
    accessesLocked closeSyncTrace = false ∧
    accessesLocked connectionEventSyncTrace = false ∧
    accessesLocked initSyncTrace = false := by
  refine ⟨rfl, rfl, rfl, rfl, rfl⟩
